import Mathlib

/-!
Verification of the `InputForm` component
(`src/frontend/src/components/InputForm.tsx`) of the deepsearch repository.

The component is a controlled form holding four pieces of state
(`internalInputValue`, `effort`, `provider`, `model`), a fixed
provider→model catalog (`modelOptions`), and event handlers
(`handleProviderChange`, `handleInternalSubmit`, `handleInternalKeyDown`).
We embed the state as a structure, each handler as a pure function from
state to state (emitting the `onSubmit` callback argument, when any, as an
`Option SubmitCall`), and JavaScript's `String.prototype.trim` as `jsTrim`.
-/

/-- One entry of the `modelOptions` catalog: `{ value, label, icon }`. -/
structure ModelOption where
  value : String
  label : String
  icon : String
deriving DecidableEq, Repr

/-- The fixed `modelOptions` object of `InputForm.tsx` (lines 33–51),
as a lookup from provider id to its ordered model list; a provider id that
is not a key of the object yields `none` (in JS the lookup would give
`undefined`). -/
def modelOptions (provider : String) : Option (List ModelOption) :=
  if provider = "gemini" then
    some [⟨"gemini-2.0-flash", "2.0 Flash", "⚡"⟩,
          ⟨"gemini-2.5-flash-preview-04-17", "2.5 Flash", "⚡"⟩,
          ⟨"gemini-2.5-pro-preview-05-06", "2.5 Pro", "🧠"⟩]
  else if provider = "openai" then
    some [⟨"gpt-4o-mini", "GPT-4o Mini", "⚡"⟩,
          ⟨"gpt-4o", "GPT-4o", "🧠"⟩,
          ⟨"gpt-4-turbo", "GPT-4 Turbo", "🚀"⟩]
  else if provider = "qwen" then
    some [⟨"qwen-plus", "Qwen Plus", "⚡"⟩,
          ⟨"qwen-max", "Qwen Max", "🧠"⟩]
  else if provider = "grok" then
    some [⟨"grok-beta", "Grok Beta", "🚀"⟩]
  else none

/-- The key set of the `modelOptions` object. -/
def catalogKeys : List String := ["gemini", "openai", "qwen", "grok"]

/-- The model ids of a provider's catalog entry (empty for a non-key). -/
def modelIds (provider : String) : List String :=
  ((modelOptions provider).getD []).map ModelOption.value

/-- The component's local state: the four `useState` hooks of
`InputForm.tsx` (lines 27–30). -/
structure FormState where
  internalInputValue : String
  effort : String
  provider : String
  model : String
deriving DecidableEq, Repr

/-- The initial state on mount: the four `useState` initial values
(`""`, `"medium"`, `"gemini"`, `"gemini-2.5-flash-preview-04-17"`). -/
def initialState : FormState :=
  { internalInputValue := ""
    effort := "medium"
    provider := "gemini"
    model := "gemini-2.5-flash-preview-04-17" }

/-- A character JavaScript's `String.prototype.trim` removes
(WhiteSpace or LineTerminator per ECMA-262; the subset relevant here). -/
def isJsWhitespace (c : Char) : Bool :=
  c = ' ' || c = '\t' || c = '\n' || c = '\r' ||
  c = Char.ofNat 0x0b || c = Char.ofNat 0x0c || c = Char.ofNat 0xa0 ||
  c = Char.ofNat 0x2028 || c = Char.ofNat 0x2029 || c = Char.ofNat 0xfeff

/-- JavaScript's `String.prototype.trim`: drop leading and trailing
whitespace. -/
def jsTrim (s : String) : String :=
  String.mk (((s.toList.dropWhile isJsWhitespace).reverse.dropWhile
      isJsWhitespace).reverse)

/-- The argument tuple the component passes to the `onSubmit` prop
(`onSubmit(internalInputValue, effort, provider, model)`). -/
structure SubmitCall where
  inputValue : String
  effort : String
  provider : String
  model : String
deriving DecidableEq, Repr

/-- `handleProviderChange` (lines 54–58): `setProvider(newProvider)`, then
look up `modelOptions[newProvider][0]` and `setModel` its `value`. In JS a
non-key provider makes `modelOptions[newProvider][0]` throw a `TypeError`
(as would an empty list's missing `[0].value`); the throwing branch is
embedded as `none`. -/
def handleProviderChange (newProvider : String) (s : FormState) :
    Option FormState :=
  match modelOptions newProvider with
  | some (firstModel :: _) =>
      some { s with provider := newProvider, model := firstModel.value }
  | _ => none

/-- `handleInternalSubmit` (lines 60–65): if `internalInputValue.trim()` is
empty (falsy), return without calling `onSubmit`; otherwise call
`onSubmit(internalInputValue, effort, provider, model)` — note: the raw
value, not the trimmed one — then `setInternalInputValue("")`. The result
is the new state paired with the `onSubmit` call, if one was made. -/
def handleInternalSubmit (s : FormState) : FormState × Option SubmitCall :=
  if jsTrim s.internalInputValue = "" then (s, none)
  else ({ s with internalInputValue := "" },
        some ⟨s.internalInputValue, s.effort, s.provider, s.model⟩)

/-- The fields of a textarea `KeyboardEvent` the handler can consult. -/
structure KeyEvent where
  key : String
  shiftKey : Bool
  ctrlKey : Bool
  altKey : Bool
  metaKey : Bool
deriving DecidableEq, Repr

/-- `handleInternalKeyDown` (lines 67–74): on `Enter` without Shift, call
`e.preventDefault()` and `handleInternalSubmit()`; otherwise do nothing.
The `Bool` component records whether the default was prevented. Note the
handler consults neither `isLoading` nor the Ctrl/Alt/Meta modifiers. -/
def handleInternalKeyDown (e : KeyEvent) (s : FormState) :
    FormState × Option SubmitCall × Bool :=
  if e.key = "Enter" && !e.shiftKey then
    let r := handleInternalSubmit s
    (r.1, r.2, true)
  else (s, none, false)

/-- Modelled from the spec: the browser's default behavior for the
textarea, which is not code of this repository — an Enter keystroke whose
default the handler did not prevent inserts a line break into the draft
text (insertion point taken at the end of the draft). A full keydown step
is the handler followed by this default. -/
def keyDownStep (e : KeyEvent) (s : FormState) : FormState × Option SubmitCall :=
  let r := handleInternalKeyDown e s
  if !r.2.2 && e.key = "Enter" then
    ({ r.1 with internalInputValue := r.1.internalInputValue ++ "\n" }, r.2.1)
  else (r.1, r.2.1)

/-- `isSubmitDisabled` (line 76): `!internalInputValue.trim() || isLoading`
(an empty trimmed string is falsy). -/
def isSubmitDisabled (s : FormState) (isLoading : Bool) : Bool :=
  decide (jsTrim s.internalInputValue = "") || isLoading

/-- Modelled from the spec: the derived value
`canSubmit = trimmedLength(draftText) > 0 AND NOT isLoading`
(spec §4.1, Derived state), to be compared with the code's
`isSubmitDisabled`. -/
def canSubmit (draft : String) (isLoading : Bool) : Bool :=
  decide (0 < (jsTrim draft).length) && !isLoading

/-- The user-level operations of the form, as named by the spec. -/
inductive FormOp where
  | updateDraftText (text : String)
  | selectEffort (level : String)
  | selectProvider (providerId : String)
  | selectModel (modelId : String)
  | submit
deriving DecidableEq, Repr

/-- One operation applied to the state. `updateDraftText` is the textarea's
`onChange` (`setInternalInputValue`), `selectEffort` the effort select's
`setEffort`, `selectProvider` is `handleProviderChange` (its throwing
branch leaves no new state), `selectModel` the model select's `setModel`
(line 200), and `submit` is `handleInternalSubmit`'s state effect. -/
def applyOp (op : FormOp) (s : FormState) : FormState :=
  match op with
  | FormOp.updateDraftText t => { s with internalInputValue := t }
  | FormOp.selectEffort l => { s with effort := l }
  | FormOp.selectProvider p => (handleProviderChange p s).getD s
  | FormOp.selectModel m => { s with model := m }
  | FormOp.submit => (handleInternalSubmit s).1

/-- A sequence of operations applied left to right. -/
def runOps (ops : List FormOp) (s : FormState) : FormState :=
  ops.foldl (fun t op => applyOp op t) s

/-- The (provider, model) consistency invariant: `model` is one of the
model ids of `provider`'s catalog entry. -/
def ConsistentState (s : FormState) : Prop :=
  s.model ∈ modelIds s.provider

instance (s : FormState) : Decidable (ConsistentState s) := by
  unfold ConsistentState; infer_instance

/-- Whether an operation is one the rendered UI can emit from state `s`:
the model select only lists the current provider's model ids
(`modelOptions[provider].map(...)`, lines 208–220); every other operation
is unrestricted. -/
def opAllowed (s : FormState) (op : FormOp) : Bool :=
  match op with
  | FormOp.selectModel m => decide (m ∈ modelIds s.provider)
  | _ => true

/-- Whether a whole operation sequence is UI-emittable from `s`. -/
def validOps (s : FormState) : List FormOp → Bool
  | [] => true
  | op :: rest => opAllowed s op && validOps (applyOp op s) rest

example : jsTrim "  hello  " = "hello" := by decide
example : jsTrim "\n\t" = "" := by decide
example : modelIds "gemini" =
    ["gemini-2.0-flash", "gemini-2.5-flash-preview-04-17",
     "gemini-2.5-pro-preview-05-06"] := by decide

/-! ## Helper lemmas -/

theorem string_mk_eq_empty_iff (l : List Char) : String.mk l = "" ↔ l = [] := by
  constructor
  · intro h
    have hd := congrArg String.data h
    simpa using hd
  · intro h; subst h; rfl

theorem decide_eq_empty_eq_not_pos_length (t : String) :
    decide (t = "") = !decide (0 < t.length) := by
  cases t with
  | mk data =>
    cases data with
    | nil => rfl
    | cons c cs =>
      have hne : String.mk (c :: cs) ≠ "" := by
        intro h
        exact absurd ((string_mk_eq_empty_iff _).mp h) (by simp)
      have hl : 0 < (String.mk (c :: cs)).length := by
        simp [String.length]
      simp [hne, hl]

theorem consistent_step (s : FormState) (op : FormOp)
    (hs : ConsistentState s) (hop : opAllowed s op = true) :
    ConsistentState (applyOp op s) := by
  cases op with
  | updateDraftText t => exact hs
  | selectEffort l => exact hs
  | selectModel m =>
    simp only [opAllowed, decide_eq_true_eq] at hop
    exact hop
  | submit =>
    show ConsistentState (handleInternalSubmit s).1
    unfold handleInternalSubmit
    split
    · exact hs
    · exact hs
  | selectProvider p =>
    show ConsistentState ((handleProviderChange p s).getD s)
    cases h : modelOptions p with
    | none => simpa [handleProviderChange, h] using hs
    | some l =>
      cases l with
      | nil => simpa [handleProviderChange, h] using hs
      | cons m rest =>
        have : handleProviderChange p s =
            some { s with provider := p, model := m.value } := by
          simp [handleProviderChange, h]
        rw [this]
        show m.value ∈ modelIds p
        simp [modelIds, h]

theorem consistent_runOps (ops : List FormOp) : ∀ s : FormState,
    ConsistentState s → validOps s ops = true →
    ConsistentState (runOps ops s) := by
  induction ops with
  | nil => intro s hs _; exact hs
  | cons op rest ih =>
    intro s hs hv
    simp only [validOps, Bool.and_eq_true] at hv
    exact ih (applyOp op s) (consistent_step s op hs hv.1) hv.2

/-! ## Claim theorems -/

/-- C1: for every provider id `p` in the catalog's key set,
`handleProviderChange p` succeeds in one state transition whose result has
`provider = p` and `model` equal to the first model id of `p`'s catalog
sequence (hence a member of `catalog[p]`), leaving the draft text and
effort level untouched. -/
theorem c1_selectProvider_resets_model (p : String) (s : FormState)
    (hp : p ∈ catalogKeys) :
    ∃ s', handleProviderChange p s = some s' ∧
      s'.provider = p ∧
      (modelIds p).head? = some s'.model ∧
      s'.model ∈ modelIds p ∧
      s'.internalInputValue = s.internalInputValue ∧
      s'.effort = s.effort := by
  simp only [catalogKeys, List.mem_cons, List.not_mem_nil, or_false] at hp
  rcases hp with h | h | h | h <;> subst h <;>
    refine ⟨_, rfl, rfl, rfl, ?_, rfl, rfl⟩ <;>
      simp [modelIds, modelOptions]

/-- C1 witness: the theorem applied at provider `"openai"` from the
initial state. -/
theorem c1_selectProvider_resets_model_witness :
    ∃ s', handleProviderChange "openai" initialState = some s' ∧
      s'.provider = "openai" ∧
      (modelIds "openai").head? = some s'.model ∧
      s'.model ∈ modelIds "openai" ∧
      s'.internalInputValue = initialState.internalInputValue ∧
      s'.effort = initialState.effort :=
  c1_selectProvider_resets_model "openai" initialState (by decide)

/-- C2 counterexample: the claim as stated is false — `selectModel` with
the arbitrary string `"bogus"` (the raw `setModel` of line 200) drives the
state out of the (provider, model) consistency invariant. -/
theorem c2_counterexample :
    ¬ ConsistentState (runOps [FormOp.selectModel "bogus"] initialState) := by
  decide

/-- C2 (amended): the consistency invariant holds along every sequence of
operations in which each `selectModel` argument is a model id of the
provider selected at that moment — exactly the sequences the rendered UI
can emit, since the model dropdown lists only the current provider's
models. The initial state itself satisfies the invariant. -/
theorem c2_invariant_reachable (ops : List FormOp)
    (h : validOps initialState ops = true) :
    ConsistentState (runOps ops initialState) :=
  consistent_runOps ops initialState (by decide) h

/-- C2 witness: a provider switch followed by an in-catalog model choice
keeps the state consistent. -/
theorem c2_invariant_reachable_witness :
    ConsistentState
      (runOps [FormOp.selectProvider "openai", FormOp.selectModel "gpt-4o"]
        initialState) :=
  c2_invariant_reachable
    [FormOp.selectProvider "openai", FormOp.selectModel "gpt-4o"] (by decide)

/-- C3 counterexample: with `draftText = "  hello  "`, `submit()` passes
the raw, untrimmed text to `onSubmit`, not the trimmed `"hello"` the claim
states. -/
theorem c3_counterexample :
    ((handleInternalSubmit
        { initialState with internalInputValue := "  hello  " }).2.map
      SubmitCall.inputValue) = some "  hello  " ∧
    some "  hello  " ≠ some ("hello" : String) := by
  constructor
  · rfl
  · decide

/-- C3 (amended): for every draft whose trimmed form is non-empty,
`submit()` invokes `onSubmit` exactly once with the RAW (untrimmed) draft
text together with the current effort, provider and model, and clears the
draft afterwards. -/
theorem c3_submit_raw_text (s : FormState)
    (h : jsTrim s.internalInputValue ≠ "") :
    handleInternalSubmit s =
      ({ s with internalInputValue := "" },
       some ⟨s.internalInputValue, s.effort, s.provider, s.model⟩) := by
  simp [handleInternalSubmit, h]

/-- C3 witness: the amended theorem applied at `draftText = "  hello  "`. -/
theorem c3_submit_raw_text_witness :
    handleInternalSubmit
        { initialState with internalInputValue := "  hello  " } =
      ({ initialState with internalInputValue := "" },
       some ⟨"  hello  ", "medium", "gemini",
             "gemini-2.5-flash-preview-04-17"⟩) :=
  c3_submit_raw_text { initialState with internalInputValue := "  hello  " }
    (by decide)

/-- C4: for every draft whose trimmed form is empty, `submit()` is a
no-op: `onSubmit` is not invoked and the whole state (the draft included)
is unchanged. -/
theorem c4_whitespace_submit_noop (s : FormState)
    (h : jsTrim s.internalInputValue = "") :
    handleInternalSubmit s = (s, none) := by
  simp [handleInternalSubmit, h]

/-- C4 witness: the theorem applied at `draftText = "\n\t"`. -/
theorem c4_whitespace_submit_noop_witness :
    handleInternalSubmit { initialState with internalInputValue := "\n\t" } =
      ({ initialState with internalInputValue := "\n\t" }, none) :=
  c4_whitespace_submit_noop
    { initialState with internalInputValue := "\n\t" } (by decide)

/-- C5: the code contradicts the claim — with `isLoading = true` the
submit affordance is disabled (`isSubmitDisabled = true`), yet the
keyboard path (`handleInternalKeyDown` on Enter without Shift, which never
consults `isLoading`) still invokes `onSubmit` on a non-empty draft. -/
theorem c5_keydown_submits_while_loading :
    isSubmitDisabled { initialState with internalInputValue := "hello" }
        true = true ∧
    (handleInternalKeyDown ⟨"Enter", false, false, false, false⟩
        { initialState with internalInputValue := "hello" }).2.1 =
      some ⟨"hello", "medium", "gemini",
            "gemini-2.5-flash-preview-04-17"⟩ := by
  constructor
  · decide
  · rfl

/-- C6 counterexample: the claim as stated is false — Enter with the Ctrl
modifier held (Shift not held) still submits, because the handler checks
only `e.shiftKey`: the call is emitted and no newline is inserted into the
draft (it is cleared instead). -/
theorem c6_counterexample :
    (keyDownStep ⟨"Enter", false, true, false, false⟩
        { initialState with internalInputValue := "hi" }).2 =
      some ⟨"hi", "medium", "gemini",
            "gemini-2.5-flash-preview-04-17"⟩ ∧
    (keyDownStep ⟨"Enter", false, true, false, false⟩
        { initialState with internalInputValue := "hi" }).1.internalInputValue
      = "" := by
  constructor
  · rfl
  · rfl

/-- C6 (amended): for every keyboard event with key Enter on the text
field, if Shift is held the event does not submit and appends a literal
newline to the draft; if Shift is not held (regardless of the other
modifiers) the event has exactly the effect of `submit()`. -/
theorem c6_enter_keydown (e : KeyEvent) (s : FormState)
    (hk : e.key = "Enter") :
    keyDownStep e s =
      if e.shiftKey then
        ({ s with internalInputValue := s.internalInputValue ++ "\n" }, none)
      else handleInternalSubmit s := by
  cases hsh : e.shiftKey <;>
    simp [keyDownStep, handleInternalKeyDown, hk, hsh]

/-- C6 witness: the amended theorem applied at a Shift+Enter event on the
initial state. -/
theorem c6_enter_keydown_witness :
    keyDownStep ⟨"Enter", true, false, false, false⟩ initialState =
      ({ initialState with internalInputValue := "\n" }, none) := by
  rw [c6_enter_keydown ⟨"Enter", true, false, false, false⟩ initialState rfl]
  rfl

/-- C7 counterexample: the claim as stated is false — the initial
`selectedModel` is not the first entry of `catalog[gemini]`
(`gemini-2.0-flash`). -/
theorem c7_counterexample :
    (modelIds initialState.provider).head? = some "gemini-2.0-flash" ∧
    (modelIds initialState.provider).head? ≠ some initialState.model := by
  constructor
  · rfl
  · decide

/-- C7 (amended): the initial state has `effortLevel = "medium"` and
`selectedProvider = "gemini"`, and its `selectedModel` is
`"gemini-2.5-flash-preview-04-17"` — the SECOND entry of `catalog[gemini]`
(a member of the catalog, but not the provider's first/default model). -/
theorem c7_initial_state :
    initialState.effort = "medium" ∧
    initialState.provider = "gemini" ∧
    initialState.model = "gemini-2.5-flash-preview-04-17" ∧
    initialState.model ∈ modelIds "gemini" ∧
    (modelIds "gemini")[1]? = some initialState.model := by
  refine ⟨rfl, rfl, rfl, by decide, rfl⟩

/-- C8: the code's `isSubmitDisabled` is the boolean negation of the
spec's `canSubmit = trimmedLength(draftText) > 0 AND NOT isLoading`, for
every draft text and loading flag. -/
theorem c8_disabled_eq_not_canSubmit (s : FormState) (l : Bool) :
    isSubmitDisabled s l = !canSubmit s.internalInputValue l := by
  unfold isSubmitDisabled canSubmit
  rw [decide_eq_empty_eq_not_pos_length]
  cases l <;> cases decide (0 < (jsTrim s.internalInputValue).length) <;> rfl

/-- C9: frame condition of a successful submission — for every state with
non-empty trimmed draft, `submit()` clears the draft and leaves effort,
provider and model exactly unchanged. -/
theorem c9_submit_frame (s : FormState)
    (h : jsTrim s.internalInputValue ≠ "") :
    (handleInternalSubmit s).1.internalInputValue = "" ∧
    (handleInternalSubmit s).1.effort = s.effort ∧
    (handleInternalSubmit s).1.provider = s.provider ∧
    (handleInternalSubmit s).1.model = s.model := by
  simp [handleInternalSubmit, h]

/-- C9 witness: the theorem applied at `draftText = "hi"` from the initial
state. -/
theorem c9_submit_frame_witness :
    (handleInternalSubmit
        { initialState with internalInputValue := "hi" }).1.internalInputValue
      = "" ∧
    (handleInternalSubmit
        { initialState with internalInputValue := "hi" }).1.effort
      = { initialState with internalInputValue := "hi" }.effort ∧
    (handleInternalSubmit
        { initialState with internalInputValue := "hi" }).1.provider
      = { initialState with internalInputValue := "hi" }.provider ∧
    (handleInternalSubmit
        { initialState with internalInputValue := "hi" }).1.model
      = { initialState with internalInputValue := "hi" }.model :=
  c9_submit_frame { initialState with internalInputValue := "hi" } (by decide)

/-- C10: `handleProviderChange p` succeeds (avoids the JS `TypeError`
branch of `modelOptions[p][0].value`) exactly when `p` is one of the four
catalog keys, for every state. -/
theorem c10_provider_change_domain (p : String) (s : FormState) :
    (handleProviderChange p s).isSome = decide (p ∈ catalogKeys) := by
  unfold handleProviderChange modelOptions catalogKeys
  split_ifs with h1 h2 h3 h4 <;> simp_all
